import Mathlib

/-!
Verification development for the PennAirThrustStand repository.

The repository is a serial data-acquisition tool: a serial reader parses
line-oriented telemetry from a microcontroller and a GUI polls it on a
timer, accumulating a per-test history that can be exported to CSV and
re-imported.

This file gives a shallow embedding of the pieces the specification talks
about:

* `SerialReaderOLD` models `src/serial_reader_OLD.py` (8-field CSV wire
  format, ring buffer of the last 100 samples).
* `SerialReader` models `src/serial_reader.py` (free-text Label: value
  wire format; the parsed record is a fixed-key dictionary).
* `ThrustGUI` models the acquisition-session parts of `src/thrust_gui.py`
  (`start_test`, `update_plots`, `export_to_csv`, `load_history_file`).

Numeric values are modelled as rationals (`ℚ`): every wire value and every
CSV cell in scope is a finite decimal literal, whose Python `float` value
is abstracted by its exact decimal reading.  The Python `float()` accepts a
few further forms (`inf`, `nan`, underscores) that never occur here and
are not modelled.  Strings are processed as `List Char` to keep every
definition executable and kernel-reducible.
-/

/-- Whitespace characters removed by Python `str.strip` (ASCII fragment,
which covers every line the device or the CSV files can produce). -/
def isSpaceCh (c : Char) : Bool :=
  c = ' ' || c = '\t' || c = '\n' || c = '\r' || c = '\x0b' || c = '\x0c'

/-- Right-strip: drop trailing whitespace, keeping the list structurally
recursive so proofs can peel one character at a time. -/
def rstripCh : List Char → List Char
  | [] => []
  | c :: cs =>
    match rstripCh cs with
    | [] => if isSpaceCh c then [] else [c]
    | r => c :: r

/-- Python `str.strip()` on a character list. -/
def pyStripCh (cs : List Char) : List Char :=
  rstripCh (cs.dropWhile isSpaceCh)

/-- Python `str.strip()` on a string. -/
def pyStripS (s : String) : String :=
  String.mk (pyStripCh s.toList)

/-- Value of a run of decimal digit characters. -/
def digitsToNat (ds : List Char) : Nat :=
  ds.foldl (fun a c => 10 * a + (c.toNat - 48)) 0

/-- Integer-part value of a digit run, as a rational. -/
def intValQ (ds : List Char) : ℚ :=
  (digitsToNat ds : ℚ)

/-- Fractional-part value of a digit run, as a rational. -/
def fracValQ (ds : List Char) : ℚ :=
  (digitsToNat ds : ℚ) / (10 : ℚ) ^ ds.length

/-- Mantissa value from integer digits and fraction digits. -/
def mantVal (ds1 ds2 : List Char) : ℚ :=
  intValQ ds1 + fracValQ ds2

/-- Parse the mantissa part of a Python float literal: digits, optionally
split by a single dot, with at least one digit present, e.g. `12`, `12.5`,
`.5`, `12.`. -/
def parseMant (cs : List Char) : Option ℚ :=
  let ds1 := cs.takeWhile Char.isDigit
  let r := cs.dropWhile Char.isDigit
  match r with
  | [] => if ds1 = [] then none else some (intValQ ds1)
  | c :: r2 =>
    if c = '.' then
      let ds2 := r2.takeWhile Char.isDigit
      let r3 := r2.dropWhile Char.isDigit
      if r3 = [] ∧ (ds1 ≠ [] ∨ ds2 ≠ []) then some (mantVal ds1 ds2) else none
    else none

/-- Parse the exponent part of a Python float literal: an optional sign
followed by a nonempty digit run. -/
def parseExp (cs : List Char) : Option ℤ :=
  match cs with
  | [] => none
  | c :: r =>
    if c = '+' then
      if r ≠ [] ∧ r.all Char.isDigit then some (digitsToNat r : ℤ) else none
    else if c = '-' then
      if r ≠ [] ∧ r.all Char.isDigit then some (-(digitsToNat r : ℤ)) else none
    else
      if (c :: r).all Char.isDigit then some (digitsToNat (c :: r) : ℤ) else none

/-- Split a float literal at the first `e`/`E`, returning the mantissa
characters and, when an `e` is present, the exponent characters. -/
def splitAtE : List Char → List Char × Option (List Char)
  | [] => ([], none)
  | c :: cs =>
    if c = 'e' ∨ c = 'E' then ([], some cs)
    else ((c :: (splitAtE cs).1, (splitAtE cs).2))

/-- Unsigned Python float literal: mantissa with optional exponent. -/
def pyFloatMag (cs : List Char) : Option ℚ :=
  match splitAtE cs with
  | (mant, none) => parseMant mant
  | (mant, some ex) =>
    match parseMant mant, parseExp ex with
    | some m, some e => some (m * (10 : ℚ) ^ e)
    | _, _ => none

/-- Signed Python float literal (after stripping). -/
def pyFloatCore (cs : List Char) : Option ℚ :=
  match cs with
  | [] => none
  | c :: r =>
    if c = '+' then pyFloatMag r
    else if c = '-' then (pyFloatMag r).map (fun q => -q)
    else pyFloatMag (c :: r)

/-- Model of Python `float(s)` on a character list: strip surrounding
whitespace, then read a signed decimal literal; `none` models the
`ValueError` raised on malformed input. -/
def pyFloatCh (cs : List Char) : Option ℚ :=
  pyFloatCore (pyStripCh cs)

/-- Model of Python `float(s)` on a string. -/
def pyFloatS (s : String) : Option ℚ :=
  pyFloatCh s.toList

/-- Python `s.split(",")`: n commas produce n+1 fields, empty fields kept. -/
def splitComma : List Char → List (List Char)
  | [] => [[]]
  | c :: rest =>
    if c = ',' then [] :: splitComma rest
    else
      match splitComma rest with
      | [] => [[c]]
      | f :: fs => (c :: f) :: fs

/-- Substring test: does `pat` occur contiguously inside `hay`?  Models
the Python test `pat in hay`. -/
def containsCh (hay pat : List Char) : Bool :=
  hay.tails.any (fun t => pat.isPrefixOf t)

/-- Substring test on strings, models Python `pat in hay`. -/
def strContains (hay pat : String) : Bool :=
  containsCh hay.toList pat.toList

/-- Case-insensitive substring test; used only to state spec-level claims
(the source never lowercases before matching). -/
def containsCI (hay pat : String) : Bool :=
  containsCh (hay.toList.map Char.toLower) (pat.toList.map Char.toLower)

/-- Segment of a line after its last colon; on a line with no colon this
is the whole line.  Models Python `line.split(':')[-1]`. -/
def afterLastColon (cs : List Char) : List Char :=
  (cs.reverse.takeWhile (fun c => ¬ (c = ':'))).reverse

/-- Try to match the regex `[-+]?\d*\.?\d+` anchored at the head of `cs`,
returning the float value of the matched token.  The optional dot gives
back its character (regex backtracking) when no digit follows it. -/
def matchNumAt (cs : List Char) : Option ℚ :=
  let sgn : Bool × List Char :=
    match cs with
    | c :: r => if c = '-' then (true, r) else if c = '+' then (false, r) else (false, cs)
    | [] => (false, cs)
  let ds1 := sgn.2.takeWhile Char.isDigit
  let r1 := sgn.2.dropWhile Char.isDigit
  let mag : Option ℚ :=
    match r1 with
    | c :: r2 =>
      if c = '.' then
        let ds2 := r2.takeWhile Char.isDigit
        if ds2 ≠ [] then some (mantVal ds1 ds2)
        else if ds1 ≠ [] then some (intValQ ds1) else none
      else if ds1 ≠ [] then some (intValQ ds1) else none
    | [] => if ds1 ≠ [] then some (intValQ ds1) else none
  mag.map (fun q => if sgn.1 then -q else q)

/-- Leftmost match of `[-+]?\d*\.?\d+` in `cs` (Python `re.search`),
returning the float value of the matched token. -/
def firstNum : List Char → Option ℚ
  | [] => none
  | c :: rest =>
    match matchNumAt (c :: rest) with
    | some q => some q
    | none => firstNum rest

/-- Value extracted in the current reader by searching the numeric-token
regex in the text after the last colon and applying `float` to the match. -/
def extractAfterColon (cs : List Char) : Option ℚ :=
  firstNum (afterLastColon cs)

/-- One telemetry sample of the legacy CSV wire format of
`serial_reader_OLD.py`: `time,thrust,rpm,temperature,voltage,current,power,throttle`. -/
structure Sample where
  time : ℚ
  thrust : ℚ
  rpm : ℚ
  temperature : ℚ
  voltage : ℚ
  current : ℚ
  power : ℚ
  throttle : ℚ
deriving DecidableEq, Repr

namespace SerialReaderOLD

/-- State of the legacy reader: `is_connected`, the serial input lines not
yet drained (already split at newlines), and the `deque(maxlen=100)` ring
buffer of parsed samples. -/
structure State where
  is_connected : Bool
  pending : List String
  buffer : List Sample
deriving DecidableEq, Repr

/-- Append to the `maxlen=100` deque: evict the oldest entry when full. -/
def pushRing (buf : List Sample) (s : Sample) : List Sample :=
  if buf.length < 100 then buf ++ [s] else buf.drop 1 ++ [s]

/-- Field-wise parse of the 8 comma-separated fields; any failing field
rejects the whole line (the `except ValueError: continue` in the source). -/
def parseFields : List (List Char) → Option Sample
  | [p0, p1, p2, p3, p4, p5, p6, p7] =>
    match pyFloatCh p0, pyFloatCh p1, pyFloatCh p2, pyFloatCh p3,
          pyFloatCh p4, pyFloatCh p5, pyFloatCh p6, pyFloatCh p7 with
    | some t, some th, some r, some te, some v, some c, some pw, some thr =>
      some { time := t, thrust := th, rpm := r, temperature := te,
             voltage := v, current := c, power := pw, throttle := thr }
    | _, _, _, _, _, _, _, _ => none
  | _ => none

/-- Per-line classification of the loop body of `read_data`: strip, discard the
empty line, split at commas, accept exactly 8 numeric fields. -/
def parseCSVLine (line : String) : Option Sample :=
  let l := pyStripCh line.toList
  if l = [] then none
  else parseFields (splitComma l)

/-- Effect of one drained line on the ring buffer. -/
def processOldLine (buf : List Sample) (line : String) : List Sample :=
  match parseCSVLine line with
  | some d => pushRing buf d
  | none => buf

/-- Model of `SerialReader.read_data` in `serial_reader_OLD.py`: drain all
pending lines into the ring buffer, then return the most recent buffered
sample, or `none` when the buffer is empty (or the reader disconnected). -/
def read_data (st : State) : Option Sample × State :=
  if st.is_connected = false then (none, st)
  else
    let buf := st.pending.foldl processOldLine st.buffer
    (buf.getLast?, { st with pending := [], buffer := buf })

end SerialReaderOLD


/-- Python value fragment used by the data dictionary of the current reader:
`None`, a float, or a string. -/
inductive PyVal where
  | vnone
  | num (q : ℚ)
  | vstr (s : String)
deriving DecidableEq, Repr

/-- Python truthiness on the fragment: `None`, `0.0` and `""` are falsy. -/
def PyVal.truthy : PyVal → Bool
  | .vnone => false
  | .num q => decide (q ≠ 0)
  | .vstr s => decide (s ≠ "")

/-- Python `a or b` on the fragment. -/
def pyOr (a b : PyVal) : PyVal :=
  if a.truthy then a else b

/-- Numeric reading of a value that the source then uses as a float. -/
def PyVal.toQ : PyVal → ℚ
  | .num q => q
  | _ => 0

/-- String reading of a value that the source then uses as a string. -/
def PyVal.toS : PyVal → String
  | .vstr s => s
  | _ => ""

/-- Parse result of the current reader: a Python dict modelled as an
association list (insertion order preserved, as in Python). -/
def PyDict := List (String × PyVal)
deriving instance DecidableEq, Repr for PyDict

/-- Keys of the dict, in order. -/
def dictKeys (d : PyDict) : List String :=
  d.map Prod.fst

/-- Python `d[k] = v` where `k` is already a key of `d` (the only use in
the source: every assigned key appears in the dict literal). -/
def setKey (d : PyDict) (k : String) (v : PyVal) : PyDict :=
  d.map (fun p => if p.1 = k then (k, v) else p)

/-- Python `d.get(k, dflt)` on the fragment. -/
def pyGet (d : PyDict) (k : String) (dflt : PyVal) : PyVal :=
  match d.find? (fun p => p.1 = k) with
  | some p => p.2
  | none => dflt

namespace SerialReader

/-- The dict literal at the top of `read_data` in `serial_reader.py`:
exactly six keys, all initially `None`. -/
def initData : PyDict :=
  [("timestamp", PyVal.vnone), ("thrust", PyVal.vnone), ("rpm", PyVal.vnone),
   ("temperature", PyVal.vnone), ("voltage", PyVal.vnone), ("current", PyVal.vnone)]

/-- Per-line branch cascade of `read_data` in `serial_reader.py`: the line
is matched against the exact substrings `Load`/`load`, `Temp`/`temp`,
`RPM`/`rpm`, `Voltage`/`voltage`, `Current`/`current` in that order, and
the first numeric token after the last colon is assigned to the matching
field when the regex finds one. -/
def processLineCh (d : PyDict) (cs : List Char) : PyDict :=
  if containsCh cs ("Load".toList) || containsCh cs ("load".toList) then
    match extractAfterColon cs with
    | some q => setKey d ("thrust") (PyVal.num q)
    | none => d
  else if containsCh cs ("Temp".toList) || containsCh cs ("temp".toList) then
    match extractAfterColon cs with
    | some q => setKey d ("temperature") (PyVal.num q)
    | none => d
  else if containsCh cs ("RPM".toList) || containsCh cs ("rpm".toList) then
    match extractAfterColon cs with
    | some q => setKey d ("rpm") (PyVal.num q)
    | none => d
  else if containsCh cs ("Voltage".toList) || containsCh cs ("voltage".toList) then
    match extractAfterColon cs with
    | some q => setKey d ("voltage") (PyVal.num q)
    | none => d
  else if containsCh cs ("Current".toList) || containsCh cs ("current".toList) then
    match extractAfterColon cs with
    | some q => setKey d ("current") (PyVal.num q)
    | none => d
  else d

/-- The `for _ in range(10)` loop of `read_data`: up to 10 iterations, each
reading one pending line when one is waiting; empty lines are skipped,
nonempty ones set `any_line` and run the parse cascade.  Returns the dict,
the `any_line` flag and the lines still pending. -/
def readLines : Nat → List String → PyDict → Bool → PyDict × Bool × List String
  | 0, ls, d, a => (d, a, ls)
  | _ + 1, [], d, a => (d, a, [])
  | n + 1, l :: ls, d, a =>
    if pyStripCh l.toList = [] then readLines n ls d a
    else readLines n ls (processLineCh d (pyStripCh l.toList)) true

/-- State of the current reader (`serial_reader.py`): the configured port,
the `is_connected` flag, whether `serial_conn` is set, and the input lines
buffered by the OS but not yet read. -/
structure State where
  port : Option String
  is_connected : Bool
  has_conn : Bool
  pending : List String
deriving DecidableEq, Repr

/-- Model of `SerialReader.read_data` in `serial_reader.py`: returns
`none` only when not connected; otherwise reads up to 10 pending lines
into the fixed-key dict and stamps a wall-clock timestamp when at least
one nonempty line was read.  `now` is the formatted wall-clock time. -/
def read_data (st : State) (now : String) : Option PyDict × State :=
  if st.is_connected = false ∨ st.has_conn = false then (none, st)
  else
    let r := readLines 10 st.pending initData false
    let d := if r.2.1 = true then setKey r.1 ("timestamp") (PyVal.vstr now) else r.1
    (some d, { st with pending := r.2.2 })

/-- Outcome of the underlying `serial.Serial(port, baud)` constructor call:
success, a `SerialException` with message, or any other exception. -/
inductive OpenOutcome where
  | ok
  | serialExn (msg : String)
  | otherExn (msg : String)
deriving DecidableEq, Repr

/-- Error message raised for a port that is already in use. -/
def busyMsg (port : String) : String :=
  "Port " ++ port ++ " is already in use. Close Arduino IDE Serial Monitor or any other program using this port."

/-- Error message raised for a generic open failure. -/
def failMsg (port msg : String) : String :=
  "Failed to connect to " ++ port ++ ": " ++ msg

/-- Model of `SerialReader.connect` in `serial_reader.py`.  Returns the
raised error message (`none` on success) together with the reader state
afterwards.  On success the settle delay has elapsed and
`reset_input_buffer` has discarded the stale startup lines. -/
def connect (st : State) (portArg : Option String) (outcome : OpenOutcome) :
    Option String × State :=
  let st1 := if (portArg.getD "") = "" then st else { st with port := portArg }
  match st1.port with
  | none => (some ("No port specified"), st1)
  | some p =>
    if p = "" then (some ("No port specified"), st1)
    else
      match outcome with
      | .ok => (none, { st1 with is_connected := true, has_conn := true, pending := [] })
      | .serialExn msg =>
        if strContains msg ("Access is denied") || strContains msg ("PermissionError") then
          (some (busyMsg p), { st1 with is_connected := false })
        else
          (some (failMsg p msg), { st1 with is_connected := false })
      | .otherExn msg =>
        (some ("Failed to connect: " ++ msg), { st1 with is_connected := false })

end SerialReader


namespace ThrustGUI

/-- Session state of `ThrustStandGUI` in `thrust_gui.py`: the serial
reader, the nine unbounded per-field history lists, and the session start
time.  The display-only deques mirror the history lists point for point
and are not modelled separately. -/
structure GuiState where
  reader : SerialReader.State
  time_history : List ℚ
  thrust_history : List ℚ
  rpm_history : List ℚ
  temperature_history : List ℚ
  voltage_history : List ℚ
  current_history : List ℚ
  power_history : List ℚ
  throttle_history : List ℚ
  timestamp_history : List String
  start_time : ℚ
deriving DecidableEq, Repr

/-- Model of `ThrustStandGUI.update_plots`: poll `read_data`; on `None`
do nothing; otherwise append one entry to every history list, defaulting
each missing or `None` field to 0, with `power` falling back to
`voltage * current` and the timestamp falling back to the wall clock.
`nowT` is `time.time()` and `nowStr` the formatted wall-clock time. -/
def update_plots (gs : GuiState) (nowT : ℚ) (nowStr : String) : GuiState :=
  match SerialReader.read_data gs.reader nowStr with
  | (none, r) => { gs with reader := r }
  | (some data, r) =>
    let start := if gs.start_time = 0 then nowT else gs.start_time
    let elapsed := nowT - start
    let timestamp_str := (pyOr (pyGet data ("timestamp") PyVal.vnone) (PyVal.vstr nowStr)).toS
    let thrust_val := (pyOr (pyGet data ("thrust") (PyVal.num 0)) (PyVal.num 0)).toQ
    let rpm_val := (pyOr (pyGet data ("rpm") (PyVal.num 0)) (PyVal.num 0)).toQ
    let temp_val := (pyOr (pyGet data ("temperature") (PyVal.num 0)) (PyVal.num 0)).toQ
    let voltage_val := (pyOr (pyGet data ("voltage") (PyVal.num 0)) (PyVal.num 0)).toQ
    let current_val := (pyOr (pyGet data ("current") (PyVal.num 0)) (PyVal.num 0)).toQ
    let power_val := (pyOr (pyGet data ("power") (PyVal.num 0)) (PyVal.num (voltage_val * current_val))).toQ
    let throttle_val := (pyOr (pyGet data ("throttle") (PyVal.num 0)) (PyVal.num 0)).toQ
    { gs with
      reader := r
      start_time := start
      time_history := gs.time_history ++ [elapsed]
      timestamp_history := gs.timestamp_history ++ [timestamp_str]
      thrust_history := gs.thrust_history ++ [thrust_val]
      rpm_history := gs.rpm_history ++ [rpm_val]
      temperature_history := gs.temperature_history ++ [temp_val]
      voltage_history := gs.voltage_history ++ [voltage_val]
      current_history := gs.current_history ++ [current_val]
      power_history := gs.power_history ++ [power_val]
      throttle_history := gs.throttle_history ++ [throttle_val] }

/-- Model of `ThrustStandGUI.start_test`: clear every history list and the
start time, then record the initial data point at t = 0 by calling
`update_plots` once (the timer start and button toggles have no data
effect). -/
def start_test (gs : GuiState) (nowT : ℚ) (nowStr : String) : GuiState :=
  update_plots { gs with
    time_history := [], thrust_history := [], rpm_history := [],
    temperature_history := [], voltage_history := [], current_history := [],
    power_history := [], throttle_history := [], timestamp_history := [],
    start_time := 0 } nowT nowStr

/-- One CSV cell.  A cell written by fixed-precision numeric formatting is
modelled by the rounded rational it denotes: `float()` of the formatted
text recovers exactly the value that `f-string` rounding produced, so the
format/parse pair is abstracted as the identity on the rounded value.
Text cells (metadata, headers, timestamps) stay strings. -/
inductive Cell where
  | cstr (s : String)
  | cnum (q : ℚ)
deriving DecidableEq, Repr

/-- Rounding applied by formatting a value with `k` fractional digits. -/
def roundDP (k : ℕ) (q : ℚ) : ℚ :=
  (round (q * (10 : ℚ) ^ k) : ℤ) / (10 : ℚ) ^ k

/-- Lowercased, stripped text of a cell, as used by the header detection
`row[0].strip().lower()`.  A numeric cell renders as sign and digits and
never starts with a letter; the empty string models that. -/
def Cell.lowerStr : Cell → String
  | .cstr s => (pyStripS s).toLower
  | .cnum _ => ""

/-- Python `cell != ""`: a formatted numeric cell is never empty. -/
def Cell.nonEmpty : Cell → Bool
  | .cstr s => decide (s ≠ "")
  | .cnum _ => true

/-- Python `float(cell)`; `none` models the `ValueError`. -/
def cellFloat : Cell → Option ℚ
  | .cstr s => pyFloatS s
  | .cnum q => some q

/-- The Python test `throttle in h.lower()` on a header cell. -/
def cellHasThrottle : Cell → Bool
  | .cstr s => strContains s.toLower ("throttle")
  | .cnum _ => false

/-- Header row written by `export_to_csv`. -/
def exportHeader : List Cell :=
  [Cell.cstr ("Timestamp (HH:MM:SS.sss)"), Cell.cstr ("Elapsed (s)"),
   Cell.cstr ("Thrust (g)"), Cell.cstr ("RPM"), Cell.cstr ("Temperature (°C)"),
   Cell.cstr ("Voltage (V)"), Cell.cstr ("Current (A)"), Cell.cstr ("Power (W)"),
   Cell.cstr ("Throttle (%)")]

/-- Data rows written by `export_to_csv`: one row per history entry, with
the stated per-field precision (elapsed/thrust/voltage/current/power to 3
places, rpm and throttle to 1, temperature to 2).  The source iterates
`i` over `range(len(time_history))` and indexes every list at `i`; the
histories are appended in lockstep by `update_plots`, so the traversal is
the simultaneous one written here. -/
def exportDataRows :
    List String → List ℚ → List ℚ → List ℚ → List ℚ → List ℚ → List ℚ → List ℚ → List ℚ →
    List (List Cell)
  | ts :: tss, t :: tsq, th :: ths, r :: rs, te :: tes, v :: vs, c :: cs, p :: ps, thr :: thrs =>
    [Cell.cstr ts, Cell.cnum (roundDP 3 t), Cell.cnum (roundDP 3 th),
     Cell.cnum (roundDP 1 r), Cell.cnum (roundDP 2 te), Cell.cnum (roundDP 3 v),
     Cell.cnum (roundDP 3 c), Cell.cnum (roundDP 3 p), Cell.cnum (roundDP 1 thr)]
      :: exportDataRows tss tsq ths rs tes vs cs ps thrs
  | _, _, _, _, _, _, _, _, _ => []

/-- Model of `ThrustStandGUI.export_to_csv`: refuses when there is no data;
otherwise writes three metadata rows, a blank row, the header row and one
data row per history entry. -/
def export_to_csv (gs : GuiState) (motor prop exported : String) :
    Option (List (List Cell)) :=
  if gs.time_history.length = 0 then none
  else some
    ([[Cell.cstr ("Motor"), Cell.cstr motor],
      [Cell.cstr ("Propeller"), Cell.cstr prop],
      [Cell.cstr ("Exported"), Cell.cstr exported],
      [],
      exportHeader]
     ++ exportDataRows gs.timestamp_history gs.time_history gs.thrust_history
          gs.rpm_history gs.temperature_history gs.voltage_history
          gs.current_history gs.power_history gs.throttle_history)

/-- Import loop state of `load_history_file`: the header bookkeeping and
the accumulating per-field sequences. -/
structure ImpState where
  headerFound : Bool
  header : List Cell
  throttleIdx : Option ℕ
  times : List ℚ
  thrusts : List ℚ
  rpms : List ℚ
  temps : List ℚ
  volts : List ℚ
  currents : List ℚ
  powers : List ℚ
  throttles : List ℚ
deriving DecidableEq, Repr

/-- Initial import state. -/
def initImp : ImpState :=
  { headerFound := false, header := [], throttleIdx := none,
    times := [], thrusts := [], rpms := [], temps := [], volts := [],
    currents := [], powers := [], throttles := [] }

/-- Python `float(row[i]) if len(row) > i and row[i] != "" else dflt`;
the outer `none` models the `ValueError` that skips the whole row. -/
def fieldAt (row : List Cell) (i : ℕ) (dflt : Option ℚ) : Option (Option ℚ) :=
  match row.get? i with
  | some c => if c.nonEmpty then (cellFloat c).map some else some dflt
  | none => some dflt

/-- Throttle extraction of the import: prefer the header-located throttle
column, then the fixed fallback column, defaulting to 0. -/
def importThrottle (ti : Option ℕ) (fallbackCol : ℕ) (row : List Cell) : Option ℚ :=
  match ti with
  | some k =>
    if k < row.length then
      match row.get? k with
      | some c => if c.nonEmpty then cellFloat c else some 0
      | none => some 0
    else importThrottleFallback fallbackCol row
  | none => importThrottleFallback fallbackCol row
where
  /-- The `elif len(row) > n and row[n] != ""` fallback. -/
  importThrottleFallback (n : ℕ) (row : List Cell) : Option ℚ :=
    match row.get? n with
    | some c => if c.nonEmpty then cellFloat c else some 0
    | none => some 0

/-- Parsed fields of a new-format data row (`Timestamp` first, elapsed
time in column 1): elapsed time (may be `None`), six measurements, power
(may be `None`), throttle.  `none` models a `ValueError` skipping the row. -/
def parseNewRow (ti : Option ℕ) (row : List Cell) :
    Option (Option ℚ × ℚ × ℚ × ℚ × ℚ × ℚ × Option ℚ × ℚ) := do
  let t ← fieldAt row 1 none
  let th ← fieldAt row 2 (some 0)
  let r ← fieldAt row 3 (some 0)
  let te ← fieldAt row 4 (some 0)
  let v ← fieldAt row 5 (some 0)
  let c ← fieldAt row 6 (some 0)
  let p ← fieldAt row 7 none
  let thr ← importThrottle ti 8 row
  pure (t, th.getD 0, r.getD 0, te.getD 0, v.getD 0, c.getD 0, p, thr)

/-- Parsed fields of an old-format data row (elapsed time in column 0). -/
def parseOldRow (ti : Option ℕ) (row : List Cell) :
    Option (Option ℚ × ℚ × ℚ × ℚ × ℚ × ℚ × Option ℚ × ℚ) := do
  let t ← match row.get? 0 with
    | some c => cellFloat c
    | none => none
  let th ← fieldAt row 1 (some 0)
  let r ← fieldAt row 2 (some 0)
  let te ← fieldAt row 3 (some 0)
  let v ← fieldAt row 4 (some 0)
  let c ← fieldAt row 5 (some 0)
  let p ← fieldAt row 6 none
  let thr ← importThrottle ti 7 row
  pure (some t, th.getD 0, r.getD 0, te.getD 0, v.getD 0, c.getD 0, p, thr)

/-- Append a parsed data row to the sequences: only rows with a numeric
elapsed time are kept, and `powers` grows only when a power cell parsed. -/
def appendRow (st : ImpState)
    (f : Option ℚ × ℚ × ℚ × ℚ × ℚ × ℚ × Option ℚ × ℚ) : ImpState :=
  match f.1 with
  | none => st
  | some t =>
    { st with
      times := st.times ++ [t]
      thrusts := st.thrusts ++ [f.2.1]
      rpms := st.rpms ++ [f.2.2.1]
      temps := st.temps ++ [f.2.2.2.1]
      volts := st.volts ++ [f.2.2.2.2.1]
      currents := st.currents ++ [f.2.2.2.2.2.1]
      powers :=
        match f.2.2.2.2.2.2.1 with
        | some p => st.powers ++ [p]
        | none => st.powers
      throttles := st.throttles ++ [f.2.2.2.2.2.2.2] }

/-- One row of the import loop of `load_history_file`: skip blank rows;
before the header, detect a data header (first cell starting with
`timestamp` or `time` after strip/lower) and locate the throttle column;
after the header, parse the row in the format the header announced,
skipping rows that raise. -/
def processRow (st : ImpState) (row : List Cell) : ImpState :=
  match row with
  | [] => st
  | c0 :: _ =>
    if st.headerFound = false then
      let first := c0.lowerStr
      if first.startsWith ("timestamp") then
        { st with headerFound := true, header := row,
                  throttleIdx := row.findIdx? cellHasThrottle }
      else if first.startsWith ("time") then
        { st with headerFound := true, header := row,
                  throttleIdx := row.findIdx? cellHasThrottle }
      else st
    else
      let isNew :=
        match st.header with
        | [] => false
        | h0 :: _ => h0.lowerStr.startsWith ("timestamp")
      if isNew then
        match parseNewRow st.throttleIdx row with
        | some f => appendRow st f
        | none => st
      else
        match parseOldRow st.throttleIdx row with
        | some f => appendRow st f
        | none => st

/-- Model of the sequence-producing part of `ThrustStandGUI.load_history_file`:
fold the rows through the import loop, then apply the two post-fixes of the
source (zero-fill throttles when their count disagrees with the times, and
recompute power as voltage times current when the power column was
incomplete). -/
def load_history_file (rows : List (List Cell)) : ImpState :=
  let st := rows.foldl processRow initImp
  let throttles2 :=
    if st.throttles.length ≠ st.times.length then List.replicate st.times.length (0 : ℚ)
    else st.throttles
  let powers2 :=
    if st.powers.length ≠ st.times.length then
      if st.volts.length = st.currents.length then
        List.zipWith (fun a b => a * b) st.volts st.currents
      else []
    else st.powers
  { st with throttles := throttles2, powers := powers2 }

end ThrustGUI

/-!  Helper lemmas. -/

theorem parseMant_nondigit_cons (c : Char) (xs : List Char)
    (hd : Char.isDigit c = false) (hdot : ¬ (c = '.')) :
    parseMant (c :: xs) = none := by
  unfold parseMant
  simp [List.takeWhile_cons, List.dropWhile_cons, hd, hdot]

theorem splitAtE_cons_ne (c : Char) (xs : List Char) (h : ¬ (c = 'e' ∨ c = 'E')) :
    splitAtE (c :: xs) = ((c :: (splitAtE xs).1, (splitAtE xs).2)) := by
  conv_lhs => rw [splitAtE]
  simp [h]

theorem pyFloatMag_nondigit_cons (c : Char) (xs : List Char)
    (hd : Char.isDigit c = false) (hdot : ¬ (c = '.'))
    (he : ¬ (c = 'e' ∨ c = 'E')) :
    pyFloatMag (c :: xs) = none := by
  unfold pyFloatMag
  rw [splitAtE_cons_ne c xs he]
  cases h2 : (splitAtE xs).2 with
  | none => simp [parseMant_nondigit_cons c _ hd hdot]
  | some ex => simp [parseMant_nondigit_cons c _ hd hdot]

theorem pyFloatCore_letter_cons (c : Char) (xs : List Char)
    (hd : Char.isDigit c = false) (hdot : ¬ (c = '.'))
    (he : ¬ (c = 'e' ∨ c = 'E')) (hp : ¬ (c = '+')) (hm : ¬ (c = '-')) :
    pyFloatCore (c :: xs) = none := by
  unfold pyFloatCore
  simp [hp, hm, pyFloatMag_nondigit_cons c xs hd hdot he]

theorem pyStripCh_cons_not_space (c : Char) (xs : List Char)
    (h : isSpaceCh c = false) : ∃ ys, pyStripCh (c :: xs) = c :: ys := by
  unfold pyStripCh
  rw [List.dropWhile_cons]
  simp only [h]
  simp only [Bool.false_eq_true, if_false]
  unfold rstripCh
  cases hr : rstripCh xs with
  | nil => exact ⟨[], by simp [h]⟩
  | cons y ys => exact ⟨y :: ys, rfl⟩

theorem pyFloatCh_t_head (c : Char) (xs : List Char)
    (hc : c = 't' ∨ c = 'T') : pyFloatCh (c :: xs) = none := by
  have hsp : isSpaceCh c = false := by
    rcases hc with h | h <;> rw [h] <;> decide
  obtain ⟨ys, hys⟩ := pyStripCh_cons_not_space c xs hsp
  unfold pyFloatCh
  rw [hys]
  rcases hc with h | h <;> rw [h] <;>
    exact pyFloatCore_letter_cons _ _ (by decide) (by decide) (by decide)
      (by decide) (by decide)

theorem parseFields_isSome_all_parse (fs : List (List Char)) (s : Sample)
    (h : SerialReaderOLD.parseFields fs = some s) :
    ∀ p ∈ fs, ∃ q, pyFloatCh p = some q := by
  unfold SerialReaderOLD.parseFields at h
  split at h
  case h_1 p0 p1 p2 p3 p4 p5 p6 p7 =>
    split at h
    case h_1 t th r te v c pw thr ht hth hr hte hv hc hpw hthr =>
      intro p hp
      simp only [List.mem_cons, List.not_mem_nil, or_false] at hp
      rcases hp with rfl | rfl | rfl | rfl | rfl | rfl | rfl | rfl
      · exact ⟨t, ht⟩
      · exact ⟨th, hth⟩
      · exact ⟨r, hr⟩
      · exact ⟨te, hte⟩
      · exact ⟨v, hv⟩
      · exact ⟨c, hc⟩
      · exact ⟨pw, hpw⟩
      · exact ⟨thr, hthr⟩
    case h_2 => exact absurd h (by simp)
  case h_2 => exact absurd h (by simp)

theorem parseFields_eight (p0 p1 p2 p3 p4 p5 p6 p7 : List Char)
    (q0 q1 q2 q3 q4 q5 q6 q7 : ℚ)
    (h0 : pyFloatCh p0 = some q0) (h1 : pyFloatCh p1 = some q1)
    (h2 : pyFloatCh p2 = some q2) (h3 : pyFloatCh p3 = some q3)
    (h4 : pyFloatCh p4 = some q4) (h5 : pyFloatCh p5 = some q5)
    (h6 : pyFloatCh p6 = some q6) (h7 : pyFloatCh p7 = some q7) :
    SerialReaderOLD.parseFields [p0, p1, p2, p3, p4, p5, p6, p7] =
      some { time := q0, thrust := q1, rpm := q2, temperature := q3,
             voltage := q4, current := q5, power := q6, throttle := q7 } := by
  simp only [SerialReaderOLD.parseFields, h0, h1, h2, h3, h4, h5, h6, h7]

theorem dictKeys_setKey (d : PyDict) (k : String) (v : PyVal) :
    dictKeys (setKey d k v) = dictKeys d := by
  induction d with
  | nil => rfl
  | cons p rest ih =>
    unfold dictKeys setKey at *
    by_cases h : p.1 = k
    · simp [h, ih]
    · simp [h, ih]

theorem find?_setKey_ne (d : PyDict) (k k2 : String) (v : PyVal) (h : ¬ (k2 = k)) :
    List.find? (fun p => p.1 = k2) (setKey d k v) =
      List.find? (fun p => p.1 = k2) d := by
  induction d with
  | nil => rfl
  | cons p rest ih =>
    have hstep : setKey (p :: rest) k v =
        (if p.1 = k then ((k, v)) else p) :: setKey rest k v := rfl
    rw [hstep]
    by_cases hp : p.1 = k
    · have hne : ¬ (k = k2) := fun hk => h hk.symm
      have hpne : ¬ (p.1 = k2) := by rw [hp]; exact hne
      rw [if_pos hp]
      rw [List.find?_cons_of_neg _ (by simpa using hne),
          List.find?_cons_of_neg _ (by simpa using hpne)]
      exact ih
    · rw [if_neg hp]
      by_cases hp2 : p.1 = k2
      · rw [List.find?_cons_of_pos _ (by simpa using hp2),
            List.find?_cons_of_pos _ (by simpa using hp2)]
      · rw [List.find?_cons_of_neg _ (by simpa using hp2),
            List.find?_cons_of_neg _ (by simpa using hp2)]
        exact ih

theorem pyGet_setKey_ne (d : PyDict) (k k2 : String) (v dflt : PyVal)
    (h : ¬ (k2 = k)) : pyGet (setKey d k v) k2 dflt = pyGet d k2 dflt := by
  unfold pyGet
  rw [find?_setKey_ne d k k2 v h]

/-- The parse cascade touches only the five measurement keys. -/
theorem processLineCh_find?_other (d : PyDict) (cs : List Char) (k2 : String)
    (h1 : ¬ (k2 = "thrust")) (h2 : ¬ (k2 = "temperature"))
    (h3 : ¬ (k2 = "rpm")) (h4 : ¬ (k2 = "voltage")) (h5 : ¬ (k2 = "current")) :
    List.find? (fun p => p.1 = k2) (SerialReader.processLineCh d cs) =
      List.find? (fun p => p.1 = k2) d := by
  unfold SerialReader.processLineCh
  repeat' split
  all_goals first
    | rfl
    | exact find?_setKey_ne _ _ _ _ h1
    | exact find?_setKey_ne _ _ _ _ h2
    | exact find?_setKey_ne _ _ _ _ h3
    | exact find?_setKey_ne _ _ _ _ h4
    | exact find?_setKey_ne _ _ _ _ h5

theorem processLineCh_keys (d : PyDict) (cs : List Char) :
    dictKeys (SerialReader.processLineCh d cs) = dictKeys d := by
  unfold SerialReader.processLineCh
  repeat' split
  all_goals first | rfl | exact dictKeys_setKey _ _ _

theorem readLines_find?_other (n : Nat) (ls : List String) (d : PyDict) (a : Bool)
    (k2 : String)
    (h1 : ¬ (k2 = "thrust")) (h2 : ¬ (k2 = "temperature"))
    (h3 : ¬ (k2 = "rpm")) (h4 : ¬ (k2 = "voltage")) (h5 : ¬ (k2 = "current")) :
    List.find? (fun p => p.1 = k2) (SerialReader.readLines n ls d a).1 =
      List.find? (fun p => p.1 = k2) d := by
  induction n generalizing ls d a with
  | zero => rfl
  | succ n ih =>
    cases ls with
    | nil => rfl
    | cons l rest =>
      unfold SerialReader.readLines
      split
      · exact ih rest d a
      · rw [ih rest _ true, processLineCh_find?_other d _ k2 h1 h2 h3 h4 h5]

theorem readLines_keys (n : Nat) (ls : List String) (d : PyDict) (a : Bool) :
    dictKeys (SerialReader.readLines n ls d a).1 = dictKeys d := by
  induction n generalizing ls d a with
  | zero => rfl
  | succ n ih =>
    cases ls with
    | nil => rfl
    | cons l rest =>
      unfold SerialReader.readLines
      split
      · exact ih rest d a
      · rw [ih rest _ true, processLineCh_keys]

/-!  Claim theorems. -/

/-- C1, counterexample.  The claim says a second `read_data` call with no
new input bytes returns "none".  In the legacy reader, once the ring
buffer holds a sample, a second call with nothing pending returns that
same most-recent sample again, not none: starting from a connected state
with an empty pending queue and one buffered sample, the state after the
first call still has no pending bytes, and the second call returns the
sample. -/
theorem c1_second_call_counterexample :
    (SerialReaderOLD.read_data
      { is_connected := true, pending := [],
        buffer := [{ time := 1, thrust := 2, rpm := 3, temperature := 4,
                     voltage := 5, current := 6, power := 7, throttle := 8 }] }).2.pending
        = [] ∧
    (SerialReaderOLD.read_data
      ((SerialReaderOLD.read_data
        { is_connected := true, pending := [],
          buffer := [{ time := 1, thrust := 2, rpm := 3, temperature := 4,
                       voltage := 5, current := 6, power := 7, throttle := 8 }] }).2)).1
      = some { time := 1, thrust := 2, rpm := 3, temperature := 4,
               voltage := 5, current := 6, power := 7, throttle := 8 } := by
  refine ⟨?_, ?_⟩ <;> with_unfolding_all rfl

/-- C1, amended.  With no new bytes between the calls, the second
`read_data` call returns exactly what the first one returned; it is
"none" only when the reader is disconnected or the drained ring buffer is
empty — never merely because no new sample completed since the last call.
The current reader, when connected with nothing pending, likewise does
not return none: it returns the dict with every field still `None`. -/
theorem c1_second_call_repeats_latest (st : SerialReaderOLD.State) :
    (SerialReaderOLD.read_data (SerialReaderOLD.read_data st).2).1 =
        (SerialReaderOLD.read_data st).1 ∧
      ((SerialReaderOLD.read_data st).1 = none ↔
        (st.is_connected = false ∨ (SerialReaderOLD.read_data st).2.buffer = [])) ∧
      (∀ (p : Option String) (now : String),
        (SerialReader.read_data
          { port := p, is_connected := true, has_conn := true, pending := [] } now).1 =
          some SerialReader.initData) := by
  refine ⟨?_, ?_, ?_⟩
  · unfold SerialReaderOLD.read_data
    by_cases h : st.is_connected = false
    · simp [h]
    · simp [h]
  · unfold SerialReaderOLD.read_data
    by_cases h : st.is_connected = false
    · simp [h]
    · simp [h, List.getLast?_eq_none_iff]
  · intro p now
    rfl

/-- C5, confirmed.  A line whose stripped text splits at commas into
exactly 8 fields, all of which parse as floats, yields a Sample whose
`time, thrust, rpm, temperature, voltage, current, power, throttle`
fields are the parsed values in field order. -/
theorem c5_csv8_yields_sample (line : String) (p0 p1 p2 p3 p4 p5 p6 p7 : List Char)
    (q0 q1 q2 q3 q4 q5 q6 q7 : ℚ)
    (hsplit : splitComma (pyStripCh line.toList) = [p0, p1, p2, p3, p4, p5, p6, p7])
    (h0 : pyFloatCh p0 = some q0) (h1 : pyFloatCh p1 = some q1)
    (h2 : pyFloatCh p2 = some q2) (h3 : pyFloatCh p3 = some q3)
    (h4 : pyFloatCh p4 = some q4) (h5 : pyFloatCh p5 = some q5)
    (h6 : pyFloatCh p6 = some q6) (h7 : pyFloatCh p7 = some q7) :
    SerialReaderOLD.parseCSVLine line =
      some { time := q0, thrust := q1, rpm := q2, temperature := q3,
             voltage := q4, current := q5, power := q6, throttle := q7 } := by
  unfold SerialReaderOLD.parseCSVLine
  by_cases hl : pyStripCh line.toList = []
  · rw [hl] at hsplit
    rw [show splitComma ([] : List Char) = [[]] from rfl] at hsplit
    simp at hsplit
  · rw [if_neg hl, hsplit]
    exact parseFields_eight p0 p1 p2 p3 p4 p5 p6 p7 q0 q1 q2 q3 q4 q5 q6 q7
      h0 h1 h2 h3 h4 h5 h6 h7

/-- Witness for C5 at the concrete line `1,2,3,4.5,5,6,7,8`. -/
theorem c5_csv8_yields_sample_witness :
    SerialReaderOLD.parseCSVLine ("1,2,3,4.5,5,6,7,8") =
      some { time := 1, thrust := 2, rpm := 3, temperature := 9 / 2,
             voltage := 5, current := 6, power := 7, throttle := 8 } :=
  c5_csv8_yields_sample _ ("1".toList) ("2".toList) ("3".toList) ("4.5".toList)
    ("5".toList) ("6".toList) ("7".toList) ("8".toList) 1 2 3 (9 / 2) 5 6 7 8
    (by with_unfolding_all rfl) (by with_unfolding_all rfl) (by with_unfolding_all rfl)
    (by with_unfolding_all rfl) (by with_unfolding_all rfl) (by with_unfolding_all rfl)
    (by with_unfolding_all rfl) (by with_unfolding_all rfl) (by with_unfolding_all rfl)

/-- C6, confirmed.  In CSV mode, a line any of whose comma-separated
fields fails float parsing contributes nothing: the ring buffer after
processing the line is exactly the buffer before it (this also covers
lines with the wrong field count, which are likewise discarded whole). -/
theorem c6_bad_field_leaves_buffer (buf : List Sample) (line : String) (p : List Char)
    (hmem : p ∈ splitComma (pyStripCh line.toList))
    (hbad : pyFloatCh p = none) :
    SerialReaderOLD.processOldLine buf line = buf := by
  unfold SerialReaderOLD.processOldLine SerialReaderOLD.parseCSVLine
  by_cases hl : pyStripCh line.toList = []
  · rw [if_pos hl]
  · rw [if_neg hl]
    cases hp : SerialReaderOLD.parseFields (splitComma (pyStripCh line.toList)) with
    | none => rfl
    | some s =>
      obtain ⟨q, hq⟩ := parseFields_isSome_all_parse _ s hp p hmem
      rw [hq] at hbad
      exact absurd hbad (by simp)

/-- Witness for C6 at the concrete line `1,2,x,4,5,6,7,8`. -/
theorem c6_bad_field_leaves_buffer_witness :
    SerialReaderOLD.processOldLine [] ("1,2,x,4,5,6,7,8") = [] :=
  c6_bad_field_leaves_buffer [] _ ("x".toList)
    (by decide) (by with_unfolding_all rfl)

/-- C3, counterexample.  The claim says a line whose first comma-separated
field starts with `time`/`timestamp` never produces a Sample.  The current
reader has no header detection at all: the header-like line
`time,temp: 3` (first field exactly `time`) hits the `temp` keyword branch
and assigns 3 to the temperature field of the record that `read_data`
returns, so processing the line did contribute a measured field. -/
theorem c3_header_counterexample :
    splitComma ("time,temp: 3".toList) = [("time".toList), ("temp: 3".toList)] ∧
    (SerialReader.read_data
      { port := none, is_connected := true, has_conn := true,
        pending := ["time,temp: 3"] } ("now")).1 =
      some (setKey (setKey SerialReader.initData ("temperature") (PyVal.num 3))
        ("timestamp") (PyVal.vstr ("now"))) := by
  refine ⟨?_, ?_⟩ <;> with_unfolding_all rfl

/-- C3, amended.  In the legacy CSV reader a line whose first
comma-separated field starts with `t`/`T` (which covers every
`time`/`timestamp` header, in any capitalization) is always discarded
whole and never reaches the ring buffer.  In the current reader a line
assigns no field — header lines included — whenever the regex finds no
numeric token after the last colon of the line; there is, however, no header
detection, so a header-like line with such a token can assign a field
(see the counterexample). -/
theorem c3_header_never_sample
    : (∀ (buf : List Sample) (line : String) (p0 : List Char)
        (rest : List (List Char)) (c : Char) (cs : List Char),
        splitComma (pyStripCh line.toList) = p0 :: rest →
        p0 = c :: cs → (c = 't' ∨ c = 'T') →
        SerialReaderOLD.processOldLine buf line = buf) ∧
      (∀ (d : PyDict) (cs : List Char), extractAfterColon cs = none →
        SerialReader.processLineCh d cs = d) := by
  constructor
  · intro buf line p0 rest c cs hsplit hp0 hc
    unfold SerialReaderOLD.processOldLine SerialReaderOLD.parseCSVLine
    by_cases hl : pyStripCh line.toList = []
    · rw [if_pos hl]
    · rw [if_neg hl]
      cases hp : SerialReaderOLD.parseFields (splitComma (pyStripCh line.toList)) with
      | none => rfl
      | some s =>
        have hmem : p0 ∈ splitComma (pyStripCh line.toList) := by
          rw [hsplit]; exact List.mem_cons_self _ _
        obtain ⟨q, hq⟩ := parseFields_isSome_all_parse _ s hp p0 hmem
        rw [hp0, pyFloatCh_t_head c cs hc] at hq
        exact absurd hq (by simp)
  · intro d cs h
    unfold SerialReader.processLineCh
    split_ifs <;> simp [h]

/-- Witness for C3 at the concrete header line `Time (s),Thrust (g)` for
the legacy reader and the colon-less remainder `Load:` for the current
reader. -/
theorem c3_header_never_sample_witness :
    SerialReaderOLD.processOldLine [] ("Time (s),Thrust (g)") = [] ∧
      SerialReader.processLineCh SerialReader.initData ("Load:".toList) =
        SerialReader.initData := by
  constructor
  · exact c3_header_never_sample.1 [] _ ("Time (s)".toList) [("Thrust (g)".toList)]
      'T' ("ime (s)".toList) (by decide) (by decide) (by decide)
  · exact c3_header_never_sample.2 SerialReader.initData _ (by with_unfolding_all rfl)

/-- C4, counterexample.  The claim says any line case-insensitively
containing `thrust` (among others) gets the numeric token after its last
colon assigned to the matching field.  The current reader only matches
the exact substrings `Load`/`load` for the thrust field: the line
`thrust: 5` contains `thrust` case-insensitively and carries the numeric
token 5 after its colon, yet the parse cascade leaves the dict unchanged. -/
theorem c4_keyword_counterexample :
    containsCI ("thrust: 5") ("thrust") = true ∧
      extractAfterColon ("thrust: 5".toList) = some 5 ∧
      SerialReader.processLineCh SerialReader.initData ("thrust: 5".toList) =
        SerialReader.initData := by
  refine ⟨?_, ?_, ?_⟩ <;> with_unfolding_all rfl

/-- C4, amended.  The recognized markers are the exact strings
`Load`/`load`, `Temp`/`temp`, `RPM`/`rpm`, `Voltage`/`voltage`,
`Current`/`current`, tried in that order; other capitalizations and the
word `thrust` are not recognized, so a line containing none of the ten
markers is left unparsed; a line containing `Load` or `load` gets the
first numeric token after its last colon assigned to the thrust field. -/
theorem c4_keyword_extraction
    : (∀ (d : PyDict) (cs : List Char),
        containsCh cs ("Load".toList) = false → containsCh cs ("load".toList) = false →
        containsCh cs ("Temp".toList) = false → containsCh cs ("temp".toList) = false →
        containsCh cs ("RPM".toList) = false → containsCh cs ("rpm".toList) = false →
        containsCh cs ("Voltage".toList) = false → containsCh cs ("voltage".toList) = false →
        containsCh cs ("Current".toList) = false → containsCh cs ("current".toList) = false →
        SerialReader.processLineCh d cs = d) ∧
      (∀ (d : PyDict) (cs : List Char) (q : ℚ),
        (containsCh cs ("Load".toList) = true ∨ containsCh cs ("load".toList) = true) →
        extractAfterColon cs = some q →
        SerialReader.processLineCh d cs = setKey d ("thrust") (PyVal.num q)) := by
  constructor
  · intro d cs c1 c2 c3 c4 c5 c6 c7 c8 c9 c10
    unfold SerialReader.processLineCh
    have d1 : containsCh cs (['L', 'o', 'a', 'd']) = false := c1
    have d2 : containsCh cs (['l', 'o', 'a', 'd']) = false := c2
    have d3 : containsCh cs (['T', 'e', 'm', 'p']) = false := c3
    have d4 : containsCh cs (['t', 'e', 'm', 'p']) = false := c4
    have d5 : containsCh cs (['R', 'P', 'M']) = false := c5
    have d6 : containsCh cs (['r', 'p', 'm']) = false := c6
    have d7 : containsCh cs (['V', 'o', 'l', 't', 'a', 'g', 'e']) = false := c7
    have d8 : containsCh cs (['v', 'o', 'l', 't', 'a', 'g', 'e']) = false := c8
    have d9 : containsCh cs (['C', 'u', 'r', 'r', 'e', 'n', 't']) = false := c9
    have d10 : containsCh cs (['c', 'u', 'r', 'r', 'e', 'n', 't']) = false := c10
    simp [d1, d2, d3, d4, d5, d6, d7, d8, d9, d10]
  · intro d cs q hload hq
    unfold SerialReader.processLineCh
    have hcond : (containsCh cs ("Load".toList) || containsCh cs ("load".toList)) = true := by
      rcases hload with h | h
      · have h2 : containsCh cs (['L', 'o', 'a', 'd']) = true := h
        simp [h2]
      · have h2 : containsCh cs (['l', 'o', 'a', 'd']) = true := h
        simp [h2]
    rw [if_pos hcond, hq]

/-- Witness for C4 at the concrete lines `Load: 5` and `THRUST: 5`. -/
theorem c4_keyword_extraction_witness :
    SerialReader.processLineCh SerialReader.initData ("THRUST: 5".toList) =
        SerialReader.initData ∧
      SerialReader.processLineCh SerialReader.initData ("Load: 5".toList) =
        setKey SerialReader.initData ("thrust") (PyVal.num 5) := by
  constructor
  · exact c4_keyword_extraction.1 SerialReader.initData _ (by decide) (by decide)
      (by decide) (by decide) (by decide) (by decide) (by decide) (by decide)
      (by decide) (by decide)
  · exact c4_keyword_extraction.2 SerialReader.initData _ 5
      (Or.inl (by decide)) (by with_unfolding_all rfl)

/-- Shape of `read_data` on a connected current reader: always a record. -/
theorem read_data_connected_some (st : SerialReader.State) (now : String)
    (h1 : st.is_connected = true) (h2 : st.has_conn = true) :
    SerialReader.read_data st now =
      (some (if (SerialReader.readLines 10 st.pending SerialReader.initData false).2.1 = true
             then setKey (SerialReader.readLines 10 st.pending SerialReader.initData false).1
                    ("timestamp") (PyVal.vstr now)
             else (SerialReader.readLines 10 st.pending SerialReader.initData false).1),
       { st with pending := (SerialReader.readLines 10 st.pending SerialReader.initData false).2.2 }) := by
  unfold SerialReader.read_data
  rw [if_neg]
  simp [h1, h2]

/-- Shape of `read_data` on a reader that is not connected. -/
theorem read_data_disconnected_none (st : SerialReader.State) (now : String)
    (h : (st.is_connected && st.has_conn) = false) :
    SerialReader.read_data st now = (none, st) := by
  unfold SerialReader.read_data
  rw [if_pos]
  rcases Bool.and_eq_false_iff.mp h with h1 | h1
  · exact Or.inl (by simp [h1])
  · exact Or.inr (by simp [h1])

/-- A tick on a disconnected reader changes nothing. -/
theorem update_plots_disconnected (gs : ThrustGUI.GuiState) (nowT : ℚ) (nowStr : String)
    (h : (gs.reader.is_connected && gs.reader.has_conn) = false) :
    ThrustGUI.update_plots gs nowT nowStr = gs := by
  unfold ThrustGUI.update_plots
  rw [read_data_disconnected_none gs.reader nowStr h]

/-- A tick on a connected reader appends exactly one entry to every
history list (the dict returned, the new reader state and the appended
values are exposed for reuse). -/
theorem update_plots_connected (gs : ThrustGUI.GuiState) (nowT : ℚ) (nowStr : String)
    (h1 : gs.reader.is_connected = true) (h2 : gs.reader.has_conn = true) :
    ∃ d r,
      SerialReader.read_data gs.reader nowStr = (some d, r) ∧
      ThrustGUI.update_plots gs nowT nowStr = { gs with
        reader := r
        start_time := if gs.start_time = 0 then nowT else gs.start_time
        time_history := gs.time_history ++ [nowT - (if gs.start_time = 0 then nowT else gs.start_time)]
        timestamp_history := gs.timestamp_history ++
          [(pyOr (pyGet d ("timestamp") PyVal.vnone) (PyVal.vstr nowStr)).toS]
        thrust_history := gs.thrust_history ++
          [(pyOr (pyGet d ("thrust") (PyVal.num 0)) (PyVal.num 0)).toQ]
        rpm_history := gs.rpm_history ++
          [(pyOr (pyGet d ("rpm") (PyVal.num 0)) (PyVal.num 0)).toQ]
        temperature_history := gs.temperature_history ++
          [(pyOr (pyGet d ("temperature") (PyVal.num 0)) (PyVal.num 0)).toQ]
        voltage_history := gs.voltage_history ++
          [(pyOr (pyGet d ("voltage") (PyVal.num 0)) (PyVal.num 0)).toQ]
        current_history := gs.current_history ++
          [(pyOr (pyGet d ("current") (PyVal.num 0)) (PyVal.num 0)).toQ]
        power_history := gs.power_history ++
          [(pyOr (pyGet d ("power") (PyVal.num 0))
             (PyVal.num ((pyOr (pyGet d ("voltage") (PyVal.num 0)) (PyVal.num 0)).toQ *
               (pyOr (pyGet d ("current") (PyVal.num 0)) (PyVal.num 0)).toQ))).toQ]
        throttle_history := gs.throttle_history ++
          [(pyOr (pyGet d ("throttle") (PyVal.num 0)) (PyVal.num 0)).toQ] } := by
  refine ⟨_, _, read_data_connected_some gs.reader nowStr h1 h2, ?_⟩
  unfold ThrustGUI.update_plots
  rw [read_data_connected_some gs.reader nowStr h1 h2]

/-- The dict produced by a connected `read_data` call never acquires keys
beyond the six of the literal; in particular `power` and `throttle` are
absent. -/
theorem read_dict_no_key (st : SerialReader.State) (now : String) (d : PyDict)
    (r : SerialReader.State) (k2 : String)
    (hread : SerialReader.read_data st now = (some d, r))
    (h1 : ¬ (k2 = "thrust")) (h2 : ¬ (k2 = "temperature"))
    (h3 : ¬ (k2 = "rpm")) (h4 : ¬ (k2 = "voltage")) (h5 : ¬ (k2 = "current"))
    (h6 : ¬ (k2 = "timestamp")) :
    List.find? (fun p => p.1 = k2) d = none := by
  unfold SerialReader.read_data at hread
  by_cases hc : st.is_connected = false ∨ st.has_conn = false
  · rw [if_pos hc] at hread
    exact absurd hread (by simp)
  · rw [if_neg hc] at hread
    simp only [Prod.mk.injEq, Option.some.injEq] at hread
    obtain ⟨hd, _⟩ := hread
    subst hd
    by_cases hany : (SerialReader.readLines 10 st.pending SerialReader.initData false).2.1 = true
    · rw [if_pos hany, find?_setKey_ne _ _ _ _ h6,
        readLines_find?_other _ _ _ _ _ h1 h2 h3 h4 h5]
      simp [SerialReader.initData]
      exact ⟨fun h => h6 h.symm, fun h => h1 h.symm, fun h => h3 h.symm,
        fun h => h2 h.symm, fun h => h4 h.symm, fun h => h5 h.symm⟩
    · rw [if_neg hany, readLines_find?_other _ _ _ _ _ h1 h2 h3 h4 h5]
      simp [SerialReader.initData]
      exact ⟨fun h => h6 h.symm, fun h => h1 h.symm, fun h => h3 h.symm,
        fun h => h2 h.symm, fun h => h4 h.symm, fun h => h5 h.symm⟩

/-- The dict produced by a connected `read_data` call has exactly the six
keys of the dict literal, in order. -/
theorem read_dict_keys (st : SerialReader.State) (now : String) (d : PyDict)
    (r : SerialReader.State)
    (hread : SerialReader.read_data st now = (some d, r)) :
    dictKeys d =
      [("timestamp"), ("thrust"), ("rpm"), ("temperature"), ("voltage"), ("current")] := by
  unfold SerialReader.read_data at hread
  by_cases hc : st.is_connected = false ∨ st.has_conn = false
  · rw [if_pos hc] at hread
    exact absurd hread (by simp)
  · rw [if_neg hc] at hread
    simp only [Prod.mk.injEq, Option.some.injEq] at hread
    obtain ⟨hd, _⟩ := hread
    subst hd
    by_cases hany : (SerialReader.readLines 10 st.pending SerialReader.initData false).2.1 = true
    · rw [if_pos hany, dictKeys_setKey, readLines_keys]
      rfl
    · rw [if_neg hany, readLines_keys]
      rfl

/-- C2, counterexample.  The claim says a tick on which the parser yields
no new sample leaves the history unchanged.  On a connected reader with no
pending bytes, `read_data` completes no sample — it returns the dict with
every field still `None` — yet the tick appends a (zero-filled) entry:
the session history grows from 0 to 1 entries. -/
theorem c2_tick_counterexample :
    (SerialReader.read_data
      { port := none, is_connected := true, has_conn := true, pending := [] }
      ("10:00")).1 = some SerialReader.initData ∧
    SerialReader.initData.all (fun kv => decide (kv.2 = PyVal.vnone)) = true ∧
    (ThrustGUI.update_plots
      { reader := { port := none, is_connected := true, has_conn := true, pending := [] },
        time_history := [], thrust_history := [], rpm_history := [],
        temperature_history := [], voltage_history := [], current_history := [],
        power_history := [], throttle_history := [], timestamp_history := [],
        start_time := 0 } 5 ("10:00")).time_history.length = 1 := by
  refine ⟨?_, ?_, ?_⟩
  · rfl
  · decide
  · with_unfolding_all rfl

/-- C2, amended.  A tick appends exactly one entry to every history list
whenever `read_data` returns a record, which on the current reader is
every tick with a connected reader — even when no bytes arrived, in which
case the appended entry is zero-filled; the history is left unchanged
exactly on the ticks where `read_data` returns none, i.e. when the reader
is not connected. -/
theorem c2_tick_append_discipline (gs : ThrustGUI.GuiState) (nowT : ℚ) (nowStr : String) :
    ((ThrustGUI.update_plots gs nowT nowStr).time_history.length =
      gs.time_history.length +
        (if gs.reader.is_connected && gs.reader.has_conn then 1 else 0)) ∧
    ((ThrustGUI.update_plots gs nowT nowStr).thrust_history.length =
      gs.thrust_history.length +
        (if gs.reader.is_connected && gs.reader.has_conn then 1 else 0)) ∧
    ((ThrustGUI.update_plots gs nowT nowStr).rpm_history.length =
      gs.rpm_history.length +
        (if gs.reader.is_connected && gs.reader.has_conn then 1 else 0)) ∧
    ((ThrustGUI.update_plots gs nowT nowStr).temperature_history.length =
      gs.temperature_history.length +
        (if gs.reader.is_connected && gs.reader.has_conn then 1 else 0)) ∧
    ((ThrustGUI.update_plots gs nowT nowStr).voltage_history.length =
      gs.voltage_history.length +
        (if gs.reader.is_connected && gs.reader.has_conn then 1 else 0)) ∧
    ((ThrustGUI.update_plots gs nowT nowStr).current_history.length =
      gs.current_history.length +
        (if gs.reader.is_connected && gs.reader.has_conn then 1 else 0)) ∧
    ((ThrustGUI.update_plots gs nowT nowStr).power_history.length =
      gs.power_history.length +
        (if gs.reader.is_connected && gs.reader.has_conn then 1 else 0)) ∧
    ((ThrustGUI.update_plots gs nowT nowStr).throttle_history.length =
      gs.throttle_history.length +
        (if gs.reader.is_connected && gs.reader.has_conn then 1 else 0)) ∧
    ((ThrustGUI.update_plots gs nowT nowStr).timestamp_history.length =
      gs.timestamp_history.length +
        (if gs.reader.is_connected && gs.reader.has_conn then 1 else 0)) ∧
    (ThrustGUI.update_plots gs nowT nowStr =
      if gs.reader.is_connected && gs.reader.has_conn then
        ThrustGUI.update_plots gs nowT nowStr
      else gs) := by
  by_cases hb : (gs.reader.is_connected && gs.reader.has_conn) = true
  · have h1 : gs.reader.is_connected = true := (Bool.and_eq_true _ _ |>.mp hb).1
    have h2 : gs.reader.has_conn = true := (Bool.and_eq_true _ _ |>.mp hb).2
    obtain ⟨d, r, hread, heq⟩ := update_plots_connected gs nowT nowStr h1 h2
    rw [heq]
    simp [hb]
  · have hb2 : (gs.reader.is_connected && gs.reader.has_conn) = false :=
      Bool.not_eq_true _ |>.mp hb
    rw [update_plots_disconnected gs nowT nowStr hb2]
    simp [hb2]

/-- C7, counterexample.  The claim says the history is empty immediately
after `start()`.  In `thrust_gui.py`, `start_test` ends by calling
`update_plots()` to record an initial data point, so with a connected
reader the history holds one entry (not zero) the moment `start_test`
returns — here starting from a state with prior history. -/
theorem c7_start_counterexample :
    (ThrustGUI.start_test
      { reader := { port := none, is_connected := true, has_conn := true, pending := [] },
        time_history := [3], thrust_history := [4], rpm_history := [5],
        temperature_history := [6], voltage_history := [7], current_history := [8],
        power_history := [9], throttle_history := [10], timestamp_history := ["x"],
        start_time := 2 } 5 ("ts")).time_history.length = 1 := by
  with_unfolding_all rfl

/-- C7, amended.  `start_test` discards the entire previous history, and
then records one initial data point: immediately after it returns, every
history list has length 1 when the reader is connected (the recorded
t = 0 point) and length 0 when it is not. -/
theorem c7_start_clears_history (gs : ThrustGUI.GuiState) (nowT : ℚ) (nowStr : String) :
    ((ThrustGUI.start_test gs nowT nowStr).time_history.length =
      (if gs.reader.is_connected && gs.reader.has_conn then 1 else 0)) ∧
    ((ThrustGUI.start_test gs nowT nowStr).thrust_history.length =
      (if gs.reader.is_connected && gs.reader.has_conn then 1 else 0)) ∧
    ((ThrustGUI.start_test gs nowT nowStr).rpm_history.length =
      (if gs.reader.is_connected && gs.reader.has_conn then 1 else 0)) ∧
    ((ThrustGUI.start_test gs nowT nowStr).temperature_history.length =
      (if gs.reader.is_connected && gs.reader.has_conn then 1 else 0)) ∧
    ((ThrustGUI.start_test gs nowT nowStr).voltage_history.length =
      (if gs.reader.is_connected && gs.reader.has_conn then 1 else 0)) ∧
    ((ThrustGUI.start_test gs nowT nowStr).current_history.length =
      (if gs.reader.is_connected && gs.reader.has_conn then 1 else 0)) ∧
    ((ThrustGUI.start_test gs nowT nowStr).power_history.length =
      (if gs.reader.is_connected && gs.reader.has_conn then 1 else 0)) ∧
    ((ThrustGUI.start_test gs nowT nowStr).throttle_history.length =
      (if gs.reader.is_connected && gs.reader.has_conn then 1 else 0)) ∧
    ((ThrustGUI.start_test gs nowT nowStr).timestamp_history.length =
      (if gs.reader.is_connected && gs.reader.has_conn then 1 else 0)) := by
  unfold ThrustGUI.start_test
  by_cases hb : (gs.reader.is_connected && gs.reader.has_conn) = true
  · have h1 : gs.reader.is_connected = true := (Bool.and_eq_true _ _ |>.mp hb).1
    have h2 : gs.reader.has_conn = true := (Bool.and_eq_true _ _ |>.mp hb).2
    obtain ⟨d, r, hread, heq⟩ :=
      update_plots_connected { gs with
        time_history := [], thrust_history := [], rpm_history := [],
        temperature_history := [], voltage_history := [], current_history := [],
        power_history := [], throttle_history := [], timestamp_history := [],
        start_time := 0 } nowT nowStr h1 h2
    rw [heq]
    simp [hb]
  · have hb2 : (gs.reader.is_connected && gs.reader.has_conn) = false :=
      Bool.not_eq_true _ |>.mp hb
    rw [update_plots_disconnected { gs with
        time_history := [], thrust_history := [], rpm_history := [],
        temperature_history := [], voltage_history := [], current_history := [],
        power_history := [], throttle_history := [], timestamp_history := [],
        start_time := 0 } nowT nowStr hb2]
    simp [hb2]

/-- C10, confirmed.  Whenever the current reader is connected, `read_data`
returns a record whose keys are exactly `timestamp, thrust, rpm,
temperature, voltage, current` — never `power` or `throttle` — and in
consequence the tick appends a history entry whose power is the appended
voltage times the appended current and whose throttle is 0. -/
theorem c10_record_keys_power_derived (gs : ThrustGUI.GuiState) (nowT : ℚ) (nowStr : String)
    (h1 : gs.reader.is_connected = true) (h2 : gs.reader.has_conn = true) :
    ∃ d r,
      SerialReader.read_data gs.reader nowStr = (some d, r) ∧
      dictKeys d =
        [("timestamp"), ("thrust"), ("rpm"), ("temperature"), ("voltage"), ("current")] ∧
      List.find? (fun p => p.1 = ("power")) d = none ∧
      List.find? (fun p => p.1 = ("throttle")) d = none ∧
      ∃ v c,
        (ThrustGUI.update_plots gs nowT nowStr).voltage_history =
            gs.voltage_history ++ [v] ∧
          (ThrustGUI.update_plots gs nowT nowStr).current_history =
            gs.current_history ++ [c] ∧
          (ThrustGUI.update_plots gs nowT nowStr).power_history =
            gs.power_history ++ [v * c] ∧
          (ThrustGUI.update_plots gs nowT nowStr).throttle_history =
            gs.throttle_history ++ [0] := by
  obtain ⟨d, r, hread, heq⟩ := update_plots_connected gs nowT nowStr h1 h2
  have hpow : List.find? (fun p => p.1 = ("power")) d = none :=
    read_dict_no_key _ _ _ _ _ hread (by decide) (by decide) (by decide)
      (by decide) (by decide) (by decide)
  have hthr : List.find? (fun p => p.1 = ("throttle")) d = none :=
    read_dict_no_key _ _ _ _ _ hread (by decide) (by decide) (by decide)
      (by decide) (by decide) (by decide)
  have hpowget : pyGet d ("power") (PyVal.num 0) = PyVal.num 0 := by
    unfold pyGet
    rw [hpow]
  have hthrget : pyGet d ("throttle") (PyVal.num 0) = PyVal.num 0 := by
    unfold pyGet
    rw [hthr]
  refine ⟨d, r, hread, read_dict_keys _ _ _ _ hread, hpow, hthr, ?_⟩
  refine ⟨_, _, by rw [heq], by rw [heq], ?_, ?_⟩
  · rw [heq]
    simp only [hpowget]
    simp [pyOr, PyVal.truthy, PyVal.toQ]
  · rw [heq]
    simp only [hthrget]
    simp [pyOr, PyVal.truthy, PyVal.toQ]

/-- Witness for C10 at a concrete connected reader state. -/
theorem c10_record_keys_power_derived_witness :
    ∃ d r,
      SerialReader.read_data
        { port := none, is_connected := true, has_conn := true, pending := ["Voltage: 2", "Current: 3"] } ("10:00") = (some d, r) ∧
      dictKeys d =
        [("timestamp"), ("thrust"), ("rpm"), ("temperature"), ("voltage"), ("current")] ∧
      List.find? (fun p => p.1 = ("power")) d = none ∧
      List.find? (fun p => p.1 = ("throttle")) d = none ∧
      ∃ v c,
        (ThrustGUI.update_plots
          { reader := { port := none, is_connected := true, has_conn := true, pending := ["Voltage: 2", "Current: 3"] },
            time_history := [], thrust_history := [], rpm_history := [],
            temperature_history := [], voltage_history := [], current_history := [],
            power_history := [], throttle_history := [], timestamp_history := [],
            start_time := 0 } 5 ("10:00")).voltage_history = [] ++ [v] ∧
        (ThrustGUI.update_plots
          { reader := { port := none, is_connected := true, has_conn := true, pending := ["Voltage: 2", "Current: 3"] },
            time_history := [], thrust_history := [], rpm_history := [],
            temperature_history := [], voltage_history := [], current_history := [],
            power_history := [], throttle_history := [], timestamp_history := [],
            start_time := 0 } 5 ("10:00")).current_history = [] ++ [c] ∧
        (ThrustGUI.update_plots
          { reader := { port := none, is_connected := true, has_conn := true, pending := ["Voltage: 2", "Current: 3"] },
            time_history := [], thrust_history := [], rpm_history := [],
            temperature_history := [], voltage_history := [], current_history := [],
            power_history := [], throttle_history := [], timestamp_history := [],
            start_time := 0 } 5 ("10:00")).power_history = [] ++ [v * c] ∧
        (ThrustGUI.update_plots
          { reader := { port := none, is_connected := true, has_conn := true, pending := ["Voltage: 2", "Current: 3"] },
            time_history := [], thrust_history := [], rpm_history := [],
            temperature_history := [], voltage_history := [], current_history := [],
            power_history := [], throttle_history := [], timestamp_history := [],
            start_time := 0 } 5 ("10:00")).throttle_history = [] ++ [0] :=
  c10_record_keys_power_derived
    { reader := { port := none, is_connected := true, has_conn := true, pending := ["Voltage: 2", "Current: 3"] },
      time_history := [], thrust_history := [], rpm_history := [],
      temperature_history := [], voltage_history := [], current_history := [],
      power_history := [], throttle_history := [], timestamp_history := [],
      start_time := 0 } 5 ("10:00") rfl rfl

/-- C9, confirmed.  A failed `connect` raises a dedicated "port busy"
message when the underlying serial exception mentions an access-denied or
permission error, and a syntactically different generic "failed to
connect" message otherwise, so a caller can tell the two apart; in both
cases the reader is left with `is_connected = false`. -/
theorem c9_connect_error_discrimination (st : SerialReader.State) (p msg1 msg2 : String)
    (hp : ¬ (p = ""))
    (hbusy : strContains msg1 ("Access is denied") = true ∨
      strContains msg1 ("PermissionError") = true)
    (hgen1 : strContains msg2 ("Access is denied") = false)
    (hgen2 : strContains msg2 ("PermissionError") = false) :
    (SerialReader.connect st (some p) (SerialReader.OpenOutcome.serialExn msg1)).1 =
        some (SerialReader.busyMsg p) ∧
      (SerialReader.connect st (some p) (SerialReader.OpenOutcome.serialExn msg2)).1 =
        some (SerialReader.failMsg p msg2) ∧
      ¬ (SerialReader.busyMsg p = SerialReader.failMsg p msg2) ∧
      (SerialReader.connect st (some p) (SerialReader.OpenOutcome.serialExn msg1)).2.is_connected
        = false ∧
      (SerialReader.connect st (some p) (SerialReader.OpenOutcome.serialExn msg2)).2.is_connected
        = false := by
  have hbusy2 : (strContains msg1 ("Access is denied") ||
      strContains msg1 ("PermissionError")) = true := by
    rcases hbusy with h | h <;> simp [h]
  have hgen : (strContains msg2 ("Access is denied") ||
      strContains msg2 ("PermissionError")) = false := by
    simp [hgen1, hgen2]
  refine ⟨?_, ?_, ?_, ?_, ?_⟩
  · unfold SerialReader.connect
    simp [hp, hbusy2]
  · unfold SerialReader.connect
    simp [hp, hgen]
  · intro hmsg
    have hdata := congrArg String.data hmsg
    unfold SerialReader.busyMsg SerialReader.failMsg at hdata
    simp [String.data_append] at hdata
  · unfold SerialReader.connect
    simp [hp, hbusy2]
  · unfold SerialReader.connect
    simp [hp, hgen]

/-- Witness for C9 at a concrete port and exception messages. -/
theorem c9_connect_error_discrimination_witness :
    (SerialReader.connect
      { port := none, is_connected := false, has_conn := false, pending := [] }
      (some ("COM3")) (SerialReader.OpenOutcome.serialExn ("PermissionError(13)"))).1 =
        some (SerialReader.busyMsg ("COM3")) ∧
      (SerialReader.connect
        { port := none, is_connected := false, has_conn := false, pending := [] }
        (some ("COM3")) (SerialReader.OpenOutcome.serialExn ("device reports readiness"))).1 =
        some (SerialReader.failMsg ("COM3") ("device reports readiness")) ∧
      ¬ (SerialReader.busyMsg ("COM3") = SerialReader.failMsg ("COM3") ("device reports readiness")) ∧
      (SerialReader.connect
        { port := none, is_connected := false, has_conn := false, pending := [] }
        (some ("COM3")) (SerialReader.OpenOutcome.serialExn ("PermissionError(13)"))).2.is_connected
        = false ∧
      (SerialReader.connect
        { port := none, is_connected := false, has_conn := false, pending := [] }
        (some ("COM3")) (SerialReader.OpenOutcome.serialExn ("device reports readiness"))).2.is_connected
        = false :=
  c9_connect_error_discrimination
    { port := none, is_connected := false, has_conn := false, pending := [] }
    ("COM3") ("PermissionError(13)") ("device reports readiness")
    (by decide) (Or.inr (by decide)) (by decide) (by decide)

/-- State of the import loop after the three metadata rows, the blank row
and the export header: header found, new format, throttle column located
at index 8, nothing accumulated. -/
theorem import_after_export_prefix (motor prop exported : String) :
    List.foldl ThrustGUI.processRow ThrustGUI.initImp
      [[ThrustGUI.Cell.cstr ("Motor"), ThrustGUI.Cell.cstr motor],
       [ThrustGUI.Cell.cstr ("Propeller"), ThrustGUI.Cell.cstr prop],
       [ThrustGUI.Cell.cstr ("Exported"), ThrustGUI.Cell.cstr exported],
       [],
       ThrustGUI.exportHeader] =
      { headerFound := true, header := ThrustGUI.exportHeader, throttleIdx := some 8,
        times := [], thrusts := [], rpms := [], temps := [], volts := [],
        currents := [], powers := [], throttles := [] } := by
  with_unfolding_all rfl

/-- Folding the exported data rows through the import loop appends each
values of each row — the original history entries at their export precision —
to the accumulated sequences. -/
theorem import_export_data_rows (tsq : List ℚ) (tss : List String)
    (ths rs tes vs cs ps thrs : List ℚ) (acc : ThrustGUI.ImpState)
    (hh : acc.headerFound = true) (hhd : acc.header = ThrustGUI.exportHeader)
    (hti : acc.throttleIdx = some 8)
    (l1 : tss.length = tsq.length) (l2 : ths.length = tsq.length)
    (l3 : rs.length = tsq.length) (l4 : tes.length = tsq.length)
    (l5 : vs.length = tsq.length) (l6 : cs.length = tsq.length)
    (l7 : ps.length = tsq.length) (l8 : thrs.length = tsq.length) :
    List.foldl ThrustGUI.processRow acc
      (ThrustGUI.exportDataRows tss tsq ths rs tes vs cs ps thrs) =
      { acc with
        times := acc.times ++ tsq.map (ThrustGUI.roundDP 3)
        thrusts := acc.thrusts ++ ths.map (ThrustGUI.roundDP 3)
        rpms := acc.rpms ++ rs.map (ThrustGUI.roundDP 1)
        temps := acc.temps ++ tes.map (ThrustGUI.roundDP 2)
        volts := acc.volts ++ vs.map (ThrustGUI.roundDP 3)
        currents := acc.currents ++ cs.map (ThrustGUI.roundDP 3)
        powers := acc.powers ++ ps.map (ThrustGUI.roundDP 3)
        throttles := acc.throttles ++ thrs.map (ThrustGUI.roundDP 1) } := by
  induction tsq generalizing tss ths rs tes vs cs ps thrs acc with
  | nil =>
    rw [List.length_eq_zero.mp l1, List.length_eq_zero.mp l2,
      List.length_eq_zero.mp l3, List.length_eq_zero.mp l4,
      List.length_eq_zero.mp l5, List.length_eq_zero.mp l6,
      List.length_eq_zero.mp l7, List.length_eq_zero.mp l8]
    simp [ThrustGUI.exportDataRows]
  | cons t tq ih =>
    cases tss with
    | nil => exact absurd l1 (by simp)
    | cons ts tss2 =>
    cases ths with
    | nil => exact absurd l2 (by simp)
    | cons th ths2 =>
    cases rs with
    | nil => exact absurd l3 (by simp)
    | cons r rs2 =>
    cases tes with
    | nil => exact absurd l4 (by simp)
    | cons te tes2 =>
    cases vs with
    | nil => exact absurd l5 (by simp)
    | cons v vs2 =>
    cases cs with
    | nil => exact absurd l6 (by simp)
    | cons c cs2 =>
    cases ps with
    | nil => exact absurd l7 (by simp)
    | cons p ps2 =>
    cases thrs with
    | nil => exact absurd l8 (by simp)
    | cons thr thrs2 =>
    have hrow : ThrustGUI.exportDataRows (ts :: tss2) (t :: tq) (th :: ths2)
        (r :: rs2) (te :: tes2) (v :: vs2) (c :: cs2) (p :: ps2) (thr :: thrs2) =
        [ThrustGUI.Cell.cstr ts, ThrustGUI.Cell.cnum (ThrustGUI.roundDP 3 t),
         ThrustGUI.Cell.cnum (ThrustGUI.roundDP 3 th), ThrustGUI.Cell.cnum (ThrustGUI.roundDP 1 r),
         ThrustGUI.Cell.cnum (ThrustGUI.roundDP 2 te), ThrustGUI.Cell.cnum (ThrustGUI.roundDP 3 v),
         ThrustGUI.Cell.cnum (ThrustGUI.roundDP 3 c), ThrustGUI.Cell.cnum (ThrustGUI.roundDP 3 p),
         ThrustGUI.Cell.cnum (ThrustGUI.roundDP 1 thr)]
          :: ThrustGUI.exportDataRows tss2 tq ths2 rs2 tes2 vs2 cs2 ps2 thrs2 := rfl
    rw [hrow, List.foldl_cons]
    have hstep : ThrustGUI.processRow acc
        [ThrustGUI.Cell.cstr ts, ThrustGUI.Cell.cnum (ThrustGUI.roundDP 3 t),
         ThrustGUI.Cell.cnum (ThrustGUI.roundDP 3 th), ThrustGUI.Cell.cnum (ThrustGUI.roundDP 1 r),
         ThrustGUI.Cell.cnum (ThrustGUI.roundDP 2 te), ThrustGUI.Cell.cnum (ThrustGUI.roundDP 3 v),
         ThrustGUI.Cell.cnum (ThrustGUI.roundDP 3 c), ThrustGUI.Cell.cnum (ThrustGUI.roundDP 3 p),
         ThrustGUI.Cell.cnum (ThrustGUI.roundDP 1 thr)] =
        { acc with
          times := acc.times ++ [ThrustGUI.roundDP 3 t]
          thrusts := acc.thrusts ++ [ThrustGUI.roundDP 3 th]
          rpms := acc.rpms ++ [ThrustGUI.roundDP 1 r]
          temps := acc.temps ++ [ThrustGUI.roundDP 2 te]
          volts := acc.volts ++ [ThrustGUI.roundDP 3 v]
          currents := acc.currents ++ [ThrustGUI.roundDP 3 c]
          powers := acc.powers ++ [ThrustGUI.roundDP 3 p]
          throttles := acc.throttles ++ [ThrustGUI.roundDP 1 thr] } := by
      unfold ThrustGUI.processRow
      rw [hh]
      rw [hhd, hti]
      simp only [ThrustGUI.exportHeader, ThrustGUI.Cell.lowerStr]
      rw [if_neg (by simp)]
      rw [if_pos (show (pyStripS ("Timestamp (HH:MM:SS.sss)")).toLower.startsWith
        ("timestamp") = true from by with_unfolding_all rfl)]
      simp [ThrustGUI.parseNewRow, ThrustGUI.fieldAt, ThrustGUI.importThrottle,
        ThrustGUI.cellFloat, ThrustGUI.Cell.nonEmpty, ThrustGUI.appendRow]
      exact ⟨hh, hhd, hti⟩
    rw [hstep]
    rw [ih tss2 ths2 rs2 tes2 vs2 cs2 ps2 thrs2
      { acc with
        times := acc.times ++ [ThrustGUI.roundDP 3 t]
        thrusts := acc.thrusts ++ [ThrustGUI.roundDP 3 th]
        rpms := acc.rpms ++ [ThrustGUI.roundDP 1 r]
        temps := acc.temps ++ [ThrustGUI.roundDP 2 te]
        volts := acc.volts ++ [ThrustGUI.roundDP 3 v]
        currents := acc.currents ++ [ThrustGUI.roundDP 3 c]
        powers := acc.powers ++ [ThrustGUI.roundDP 3 p]
        throttles := acc.throttles ++ [ThrustGUI.roundDP 1 thr] }
      hh hhd hti
      (by simpa using l1) (by simpa using l2) (by simpa using l3) (by simpa using l4)
      (by simpa using l5) (by simpa using l6) (by simpa using l7) (by simpa using l8)]
    simp

/-- C8, confirmed.  Exporting a nonempty session history to CSV and
re-importing the produced file reproduces the elapsed-time sequence and
every per-field measurement sequence exactly at the stated per-field
export precision: time, thrust, voltage, current and power at 3 decimal
places, rpm and throttle at 1, temperature at 2.  The histories grow in
lockstep during acquisition, which the equal-length hypotheses record. -/
theorem c8_export_import_roundtrip (gs : ThrustGUI.GuiState) (motor prop exported : String)
    (hne : ¬ (gs.time_history = []))
    (e1 : gs.timestamp_history.length = gs.time_history.length)
    (e2 : gs.thrust_history.length = gs.time_history.length)
    (e3 : gs.rpm_history.length = gs.time_history.length)
    (e4 : gs.temperature_history.length = gs.time_history.length)
    (e5 : gs.voltage_history.length = gs.time_history.length)
    (e6 : gs.current_history.length = gs.time_history.length)
    (e7 : gs.power_history.length = gs.time_history.length)
    (e8 : gs.throttle_history.length = gs.time_history.length) :
    ∃ rows,
      ThrustGUI.export_to_csv gs motor prop exported = some rows ∧
      (ThrustGUI.load_history_file rows).times =
          gs.time_history.map (ThrustGUI.roundDP 3) ∧
        (ThrustGUI.load_history_file rows).thrusts =
          gs.thrust_history.map (ThrustGUI.roundDP 3) ∧
        (ThrustGUI.load_history_file rows).rpms =
          gs.rpm_history.map (ThrustGUI.roundDP 1) ∧
        (ThrustGUI.load_history_file rows).temps =
          gs.temperature_history.map (ThrustGUI.roundDP 2) ∧
        (ThrustGUI.load_history_file rows).volts =
          gs.voltage_history.map (ThrustGUI.roundDP 3) ∧
        (ThrustGUI.load_history_file rows).currents =
          gs.current_history.map (ThrustGUI.roundDP 3) ∧
        (ThrustGUI.load_history_file rows).powers =
          gs.power_history.map (ThrustGUI.roundDP 3) ∧
        (ThrustGUI.load_history_file rows).throttles =
          gs.throttle_history.map (ThrustGUI.roundDP 1) := by
  have hlen : ¬ (gs.time_history.length = 0) := by
    simpa [List.length_eq_zero] using hne
  have hfold :
      (ThrustGUI.load_history_file
        ([[ThrustGUI.Cell.cstr ("Motor"), ThrustGUI.Cell.cstr motor],
          [ThrustGUI.Cell.cstr ("Propeller"), ThrustGUI.Cell.cstr prop],
          [ThrustGUI.Cell.cstr ("Exported"), ThrustGUI.Cell.cstr exported],
          [],
          ThrustGUI.exportHeader]
         ++ ThrustGUI.exportDataRows gs.timestamp_history gs.time_history
              gs.thrust_history gs.rpm_history gs.temperature_history
              gs.voltage_history gs.current_history gs.power_history
              gs.throttle_history)) =
      { headerFound := true, header := ThrustGUI.exportHeader, throttleIdx := some 8,
        times := gs.time_history.map (ThrustGUI.roundDP 3),
        thrusts := gs.thrust_history.map (ThrustGUI.roundDP 3),
        rpms := gs.rpm_history.map (ThrustGUI.roundDP 1),
        temps := gs.temperature_history.map (ThrustGUI.roundDP 2),
        volts := gs.voltage_history.map (ThrustGUI.roundDP 3),
        currents := gs.current_history.map (ThrustGUI.roundDP 3),
        powers := gs.power_history.map (ThrustGUI.roundDP 3),
        throttles := gs.throttle_history.map (ThrustGUI.roundDP 1) } := by
    unfold ThrustGUI.load_history_file
    rw [List.foldl_append, import_after_export_prefix motor prop exported,
      import_export_data_rows gs.time_history gs.timestamp_history gs.thrust_history
        gs.rpm_history gs.temperature_history gs.voltage_history gs.current_history
        gs.power_history gs.throttle_history
        { headerFound := true, header := ThrustGUI.exportHeader, throttleIdx := some 8,
          times := [], thrusts := [], rpms := [], temps := [], volts := [],
          currents := [], powers := [], throttles := [] }
        rfl rfl rfl e1 e2 e3 e4 e5 e6 e7 e8]
    simp [List.length_map, e5, e6, e7, e8]
  unfold ThrustGUI.export_to_csv
  rw [if_neg hlen]
  exact ⟨_, rfl, by rw [hfold], by rw [hfold], by rw [hfold], by rw [hfold],
    by rw [hfold], by rw [hfold], by rw [hfold], by rw [hfold]⟩

/-- Witness for C8 at a concrete one-entry history. -/
theorem c8_export_import_roundtrip_witness :
    ∃ rows,
      ThrustGUI.export_to_csv
        { reader := { port := none, is_connected := false, has_conn := false, pending := [] },
          time_history := [3 / 2], thrust_history := [2], rpm_history := [3],
          temperature_history := [4], voltage_history := [5], current_history := [6],
          power_history := [30], throttle_history := [7],
          timestamp_history := ["10:00:00.000"], start_time := 1 }
        ("m") ("p") ("e") = some rows ∧
      (ThrustGUI.load_history_file rows).times = [3 / 2].map (ThrustGUI.roundDP 3) ∧
        (ThrustGUI.load_history_file rows).thrusts = [2].map (ThrustGUI.roundDP 3) ∧
        (ThrustGUI.load_history_file rows).rpms = [3].map (ThrustGUI.roundDP 1) ∧
        (ThrustGUI.load_history_file rows).temps = [4].map (ThrustGUI.roundDP 2) ∧
        (ThrustGUI.load_history_file rows).volts = [5].map (ThrustGUI.roundDP 3) ∧
        (ThrustGUI.load_history_file rows).currents = [6].map (ThrustGUI.roundDP 3) ∧
        (ThrustGUI.load_history_file rows).powers = [30].map (ThrustGUI.roundDP 3) ∧
        (ThrustGUI.load_history_file rows).throttles = [7].map (ThrustGUI.roundDP 1) :=
  c8_export_import_roundtrip
    { reader := { port := none, is_connected := false, has_conn := false, pending := [] },
      time_history := [3 / 2], thrust_history := [2], rpm_history := [3],
      temperature_history := [4], voltage_history := [5], current_history := [6],
      power_history := [30], throttle_history := [7],
      timestamp_history := ["10:00:00.000"], start_time := 1 }
    ("m") ("p") ("e") (by simp) rfl rfl rfl rfl rfl rfl rfl rfl
